import Mathlib

/-!
Verification of the jumpbox menu engine (src/jumpbox/jumpbox.py,
src/jumpbox/external_item.py, src/jumpbox/submenu_item.py) against its
natural-language specification.

The Python classes are shallowly embedded:
  - Jumpbox navigation state (items, current_option, selected_option,
    should_exit) becomes the structure MenuState; methods become pure
    state-passing functions with the same names where Lean allows it.
  - Menu items are the inductive Item: the constructor Item.exit stands for
    the node singleton exit_item (Python identity comparison with
    self.exit_item); Item.other t stands for any other MenuItem carrying
    display text t, whose set_up, action and clean_up are no-ops and whose
    should_exit flag is False (MenuItem defaults).
  - Python list indexing items[i] (which supports negative indices and
    raises IndexError out of range) is pyGet, returning none on IndexError.
  - Methods that can raise at runtime return Option MenuState; none models
    the raised exception (UnboundLocalError in draw on an empty list,
    AttributeError in select when selected_item is None).
  - Curses calls are modelled as emitted effects: draw produces the list of
    drawing operations (DrawOp) it performs, and the ExternalItem terminal
    handoff produces a list of TermEffect values in call order.
  - Integers are Int where Python arithmetic can go negative
    (current_option reaches -1 via go_up on an empty list).
-/

set_option autoImplicit false

/-- A menu item. Item.exit is the owning node singleton exit_item
(ExitItem, should_exit = True); Item.other t is any other plain MenuItem
with display text t (no-op actions, should_exit = False). -/
inductive Item where
  | exit : Item
  | other : String → Item
deriving DecidableEq, Repr

/-- The should_exit attribute of an item: True for the ExitItem, False for
a plain MenuItem (the Python default). -/
def Item.shouldExit : Item → Bool
  | .exit => true
  | .other _ => false

/-- The navigation state of one Jumpbox node: the items list, the
highlighted index current_option, the recorded selected index
selected_option (-1 = none), and the should_exit flag. -/
structure MenuState where
  items : List Item
  current_option : Int
  selected_option : Int
  should_exit : Bool
deriving DecidableEq, Repr

/-- Python list indexing l[i]: non-negative indices index from the front,
negative indices from the back, and an out-of-range index raises
IndexError, modelled as none. -/
def pyGet (l : List Item) (i : Int) : Option Item :=
  if 0 ≤ i ∧ i < (l.length : Int) then l.get? i.toNat
  else if -(l.length : Int) ≤ i ∧ i < 0 then l.get? ((l.length : Int) + i).toNat
  else none

/-- Jumpbox.current_item: items[current_option] when the list is non-empty,
None otherwise. -/
def current_item (s : MenuState) : Option Item :=
  if s.items ≠ [] then pyGet s.items s.current_option else none

/-- Jumpbox.selected_item: items[current_option] (note: indexed by the
cursor, not by selected_option) when the list is non-empty and
selected_option is not -1, None otherwise. -/
def selected_item (s : MenuState) : Option Item :=
  if s.items ≠ [] ∧ s.selected_option ≠ -1 then pyGet s.items s.current_option
  else none

/-- Jumpbox.go_down cursor update: increment current_option unless it is at
len(items) - 1 or beyond, in which case reset it to 0. (The draw call that
follows in the source is modelled separately at the dispatch level.) -/
def go_down (s : MenuState) : MenuState :=
  if s.current_option < (s.items.length : Int) - 1 then
    { s with current_option := s.current_option + 1 }
  else
    { s with current_option := 0 }

/-- Jumpbox.go_up cursor update: decrement current_option when positive,
otherwise set it to len(items) - 1 (which is -1 on an empty list). -/
def go_up (s : MenuState) : MenuState :=
  if s.current_option > 0 then
    { s with current_option := s.current_option - 1 }
  else
    { s with current_option := (s.items.length : Int) - 1 }

/-- Jumpbox.go_to cursor update: set current_option to the given index. -/
def go_to (option : Int) (s : MenuState) : MenuState :=
  { s with current_option := option }

/-- Jumpbox.add_exit on the items list: append the exit item when the list
is non-empty and its last element is not already the exit item. Returns the
new list and the bool the method returns. -/
def add_exit (items : List Item) : List Item × Bool :=
  match items.getLast? with
  | none => (items, false)
  | some it => if it = Item.exit then (items, false) else (items ++ [Item.exit], true)

/-- Jumpbox.remove_exit on the items list: drop the last element when it is
the exit item. Returns the new list and the bool the method returns. -/
def remove_exit (items : List Item) : List Item × Bool :=
  match items.getLast? with
  | none => (items, false)
  | some it => if it = Item.exit then (items.dropLast, true) else (items, false)

/-- Jumpbox.append_item on the items list: remove a trailing exit item,
append the new item, and re-add the exit item when one had been removed.
(The screen-resize and redraw side effects are display-only.) -/
def append_item (items : List Item) (item : Item) : List Item :=
  let r := remove_exit items
  let items2 := r.1 ++ [item]
  if r.2 then (add_exit items2).1 else items2

/-- MenuItem.show: format an option row as "<index+1> - <text>". -/
def MenuItem_show (text : String) (index : Nat) : String :=
  toString (index + 1) ++ " - " ++ text

/-- The label text ExitItem.show computes each call from the current parent
relation: parentTitle is some t when the owning node and its parent exist
and the parent has title t, none otherwise. -/
def exit_text (parentTitle : Option String) : String :=
  match parentTitle with
  | some t => "Return to " ++ t ++ " menu"
  | none => "Exit"

/-- The mutable text attribute of an ExitItem (overwritten by every show
call in the source). -/
structure ExitItemState where
  text : String
deriving DecidableEq, Repr

/-- ExitItem.show: recompute the label text from the current parent
relation, store it in the text attribute, and return the formatted row
via MenuItem.show. -/
def ExitItem_show (st : ExitItemState) (parentTitle : Option String)
    (index : Nat) : ExitItemState × String :=
  ({ st with text := exit_text parentTitle }, MenuItem_show (exit_text parentTitle) index)

/-- The row text item.show(index) produces during draw, given the owning
node parent title (used by the exit item only). -/
def Item_show (parentTitle : Option String) (it : Item) (index : Nat) : String :=
  match it with
  | .exit => (ExitItem_show ⟨"Exit"⟩ parentTitle index).2
  | .other t => MenuItem_show t index

/-- The scroll offset computed at the end of Jumpbox.draw from the item
count, the terminal height term_y and the cursor. -/
def top_row (n_items term_y : Nat) (current : Int) : Int :=
  if (n_items : Int) + 6 > (term_y : Int) then
    if (term_y : Int) + current < (n_items : Int) + 6 then current
    else (n_items : Int) + 6 - (term_y : Int)
  else 0

/-- The scroll offset as the specification words it: 0 when the content
height C = option count + 6 fits in the terminal height H; the cursor when
C exceeds H and H + cursor < C; C - H otherwise. -/
def top_row_spec (n_items term_y : Nat) (current : Int) : Int :=
  if (n_items : Int) + 6 ≤ (term_y : Int) then 0
  else if (term_y : Int) + current < (n_items : Int) + 6 then current
  else (n_items : Int) + 6 - (term_y : Int)

/-- Text style attribute of a curses addstr call. -/
inductive Style where
  | underline
  | bold
  | normal
  | highlight
deriving DecidableEq, Repr

/-- One drawing operation performed by Jumpbox.draw. -/
inductive DrawOp where
  | border
  | addstr (y x : Nat) (text : String) (style : Style)
  | refresh (offset : Int)
deriving DecidableEq, Repr

/-- Jumpbox.draw: emit the border, the optional title and subtitle, one row
per item, the version stamp at the row of the last item, and the pad
refresh at the computed scroll offset. Returns the operations performed and
whether the call completed: on an empty items list the for loop never runs,
so the version stamp line reads the unbound loop variable and raises
UnboundLocalError after the border, title and subtitle were already drawn
(second component false, header operations only). -/
def draw (title subtitle parentTitle : Option String) (version : String)
    (s : MenuState) (term_y term_x : Nat) : List DrawOp × Bool :=
  let header : List DrawOp :=
    [DrawOp.border]
      ++ (match title with
          | some t => [DrawOp.addstr 2 2 t Style.underline]
          | none => [])
      ++ (match subtitle with
          | some t => [DrawOp.addstr 4 2 t Style.bold]
          | none => [])
  let rows : List DrawOp :=
    s.items.enum.map (fun p =>
      DrawOp.addstr (p.1 + 5) 4 (Item_show parentTitle p.2 p.1)
        (if s.current_option = (p.1 : Int) then Style.highlight else Style.normal))
  match s.items.length with
  | 0 => (header ++ rows, false)
  | n + 1 =>
    (header ++ rows
        ++ [DrawOp.addstr (n + 5) (term_x - version.length - 2) version Style.bold,
            DrawOp.refresh (top_row s.items.length term_y s.current_option)],
      true)

/-- A draw call attached to a state transition: draw raises
UnboundLocalError exactly when the items list is empty, so the transition
crashes (none) in that case and otherwise returns the state unchanged. -/
def with_draw (s : MenuState) : Option MenuState :=
  if s.items.isEmpty then none else some s

/-- Jumpbox.select for a node whose items are plain items or the exit item:
record selected_option := current_option, look up selected_item (None
gives AttributeError on .set_up, modelled none), run its no-op set_up,
action and clean_up, copy its should_exit flag, and redraw unless
should_exit was set. -/
def select (s : MenuState) : Option MenuState :=
  let s1 := { s with selected_option := s.current_option }
  match selected_item s1 with
  | none => none
  | some it =>
    let s2 := { s1 with should_exit := it.shouldExit }
    if s2.should_exit then some s2 else with_draw s2

/-- Jumpbox.process_user_input: dispatch one key code. Digits map to go_to
when between ord of 1 and the computed maximum; KEY_DOWN = 258, KEY_UP =
259, KEY_LEFT = 260, KEY_RIGHT = 261, KEY_RESIZE = 410 and newline = 10
dispatch as in the source; anything else leaves the state unchanged.
KEY_RESIZE re-enters the main loop, which redraws with the same navigation
state (a crash on an empty items list, otherwise no state change). -/
def process_user_input (s : MenuState) (user_input : Nat) : Option MenuState :=
  let go_to_max : Nat := if 9 ≤ s.items.length then 57 else 48 + s.items.length
  if 49 ≤ user_input ∧ user_input ≤ go_to_max then
    with_draw (go_to ((user_input : Int) - 48 - 1) s)
  else if user_input = 258 then with_draw (go_down s)
  else if user_input = 259 then with_draw (go_up s)
  else if user_input = 261 then select s
  else if user_input = 260 then select { s with current_option := (s.items.length : Int) - 1 }
  else if user_input = 410 then with_draw s
  else if user_input = 10 then select s
  else some s

/-- Jumpbox._main_loop input phase: repeatedly process one key from the
script while should_exit is unset, with fuel bounding the number of
iterations (the source loop is unbounded; every claim uses finite input
scripts). An exhausted script or fuel returns the state reached so far; a
crash in dispatch propagates as none. -/
def main_loop : Nat → MenuState → List Nat → Option MenuState
  | 0, s, _ => some s
  | _ + 1, s, [] => some s
  | fuel + 1, s, i :: rest =>
    if s.should_exit then some s
    else
      match process_user_input s i with
      | some s2 => main_loop fuel s2 rest
      | none => none

/-- Jumpbox.start: reset current_option to 0 and should_exit to False, add
or remove the exit item per the show_exit flag, then run the main loop on
the input script. -/
def start (fuel : Nat) (show_exit : Bool) (s : MenuState) (script : List Nat) :
    Option MenuState :=
  let items2 := if show_exit then (add_exit s.items).1 else (remove_exit s.items).1
  main_loop fuel
    { s with items := items2, current_option := 0, should_exit := false } script

/-- Jumpbox.select as executed when the parent cursor rests on a
SubmenuItem whose submenu is the child node: record selected_option :=
current_option, run SubmenuItem.set_up (terminal effects only), run
action = child.start on the child state with the child input script,
run clean_up (terminal effects only), copy the SubmenuItem should_exit
flag (False), and redraw the parent. Returns the parent and child states
after control returns, or none when the child loop crashed. -/
def select_submenu (p c : MenuState) (show_exit : Bool) (fuel : Nat)
    (script : List Nat) : Option (MenuState × MenuState) :=
  let p1 := { p with selected_option := p.current_option }
  match start fuel show_exit c script with
  | none => none
  | some c2 =>
    match with_draw { p1 with should_exit := false } with
    | none => none
    | some p2 => some (p2, c2)

/-- One curses or terminal call made by the handoff protocol. -/
inductive TermEffect where
  | def_prog_mode
  | clear_terminal
  | clear_screen
  | reset_prog_mode
  | curs_set (visibility : Nat)
deriving DecidableEq, Repr

/-- ExternalItem.set_up, as the sequence of terminal calls it performs:
curses.def_prog_mode(), clear_terminal(), self.menu.clear_screen(). -/
def ExternalItem_set_up : List TermEffect :=
  [TermEffect.def_prog_mode, TermEffect.clear_terminal, TermEffect.clear_screen]

/-- ExternalItem.clean_up, as the sequence of terminal calls it performs:
self.menu.clear_screen(), curses.reset_prog_mode(), curses.curs_set(1),
curses.curs_set(0). -/
def ExternalItem_clean_up : List TermEffect :=
  [TermEffect.clear_screen, TermEffect.reset_prog_mode,
    TermEffect.curs_set 1, TermEffect.curs_set 0]

lemma pyGet_nonneg (l : List Item) (i : Int) (h0 : 0 ≤ i)
    (hlt : i < (l.length : Int)) : pyGet l i = l.get? i.toNat := by
  unfold pyGet
  rw [if_pos ⟨h0, hlt⟩]

/-- Claim C4: on every draw, with terminal height H and content height
C = option count + 6, the scroll offset is 0 when C ≤ H, the cursor index
when C > H and H + cursor < C, and C - H otherwise. -/
theorem top_row_matches_spec (n_items term_y : Nat) (current : Int) :
    top_row n_items term_y current = top_row_spec n_items term_y current := by
  unfold top_row top_row_spec
  split_ifs <;> omega

/-- Claim C5: the release phase of the terminal handoff performs, in this
exact order: clear the owning node drawing surface, restore the previously
captured terminal mode, then set cursor visibility on and then off; in
particular the cursor-visibility calls occur exactly twice, with arguments
1 then 0. -/
theorem clean_up_release_order :
    ExternalItem_clean_up
        = [TermEffect.clear_screen, TermEffect.reset_prog_mode,
            TermEffect.curs_set 1, TermEffect.curs_set 0]
      ∧ ExternalItem_clean_up.filterMap
          (fun e => match e with
            | TermEffect.curs_set v => some v
            | _ => none) = [1, 0] :=
  ⟨rfl, rfl⟩

/-- Claim C7: ExitItem.show computes the label Exit when the owning node
has no parent and the label Return to ParentTitle menu when it has one,
formatted through MenuItem.show; the result is recomputed from the current
parent relation on every call, independent of the cached text attribute. -/
theorem exit_label_tracks_parent (st1 st2 : ExitItemState) (t : String) (i : Nat) :
    exit_text none = "Exit"
      ∧ exit_text (some t) = "Return to " ++ t ++ " menu"
      ∧ (ExitItem_show st1 none i).2 = MenuItem_show "Exit" i
      ∧ (ExitItem_show st1 (some t) i).2
          = MenuItem_show ("Return to " ++ t ++ " menu") i
      ∧ ExitItem_show st1 (some t) i = ExitItem_show st2 (some t) i
      ∧ ExitItem_show st1 none i = ExitItem_show st2 none i :=
  ⟨rfl, rfl, rfl, rfl, rfl, rfl⟩

/-- Claim C2 counterexample: on an empty options list the cursor is not
left unchanged: go_up from cursor 0 sets current_option to
len(items) - 1 = -1. -/
theorem go_up_empty_changes_cursor :
    (go_up { items := [], current_option := 0, selected_option := -1,
             should_exit := false }).current_option ≠ 0 := by
  decide

/-- Claim C2 (amended): for a cursor within the bounds of a non-empty
options list, go_down moves one index down with wraparound past the last
index to 0 and go_up moves one index up with wraparound past 0 to the last
index (both expressed modulo the option count); on an empty options list
with cursor 0, go_down sets the cursor to 0 and go_up sets it to -1 (the
value of len(items) - 1 there), so the empty-list case is not a no-op. -/
theorem go_down_up_wraparound :
    (∀ s : MenuState, 0 ≤ s.current_option →
        s.current_option < (s.items.length : Int) →
        (go_down s).current_option
            = (s.current_option + 1) % (s.items.length : Int)
          ∧ (go_up s).current_option
              = (s.current_option + (s.items.length : Int) - 1)
                  % (s.items.length : Int))
    ∧ (∀ s : MenuState, s.items = [] → s.current_option = 0 →
        (go_down s).current_option = 0 ∧ (go_up s).current_option = -1) := by
  constructor
  · intro s h0 hlt
    have hn : 0 < (s.items.length : Int) := by omega
    constructor
    · unfold go_down
      split_ifs with h
      · simp only
        exact (Int.emod_eq_of_lt (by omega) (by omega)).symm
      · simp only
        have he : s.current_option + 1 = (s.items.length : Int) := by omega
        rw [he, Int.emod_self]
    · unfold go_up
      split_ifs with h
      · simp only
        have he : s.current_option + (s.items.length : Int) - 1
            = (s.current_option - 1) + (s.items.length : Int) * 1 := by ring
        rw [he, Int.add_mul_emod_self_left]
        exact (Int.emod_eq_of_lt (by omega) (by omega)).symm
      · simp only
        have hc : s.current_option = 0 := by omega
        rw [hc]
        have he : (0 : Int) + (s.items.length : Int) - 1
            = (s.items.length : Int) - 1 := by ring
        rw [he]
        exact (Int.emod_eq_of_lt (by omega) (by omega)).symm
  · intro s hitems hc
    unfold go_down go_up
    rw [hitems, hc]
    simp

/-- Witness for the amended claim C2 at concrete inputs: a two-item list
with the cursor on the last index wraps down to (1 + 1) mod 2 = 0, and the
empty list sends the cursor from 0 to -1 under go_up. -/
theorem go_down_up_wraparound_witness :
    (go_down { items := [Item.other "a", Item.other "b"], current_option := 1,
               selected_option := -1, should_exit := false }).current_option
        = (1 + 1) % (([Item.other "a", Item.other "b"] : List Item).length : Int)
      ∧ (go_up { items := [], current_option := 0, selected_option := -1,
                 should_exit := false }).current_option = -1 :=
  ⟨(go_down_up_wraparound.1 _ (by decide) (by decide)).1,
    (go_down_up_wraparound.2 _ rfl rfl).2⟩

/-- Claim C9: for a cursor within the bounds of a non-empty options list
that is unchanged between the two calls, go_down followed by go_up restores
the entire menu state, cursor included. -/
theorem go_up_go_down_id (s : MenuState) (h0 : 0 ≤ s.current_option)
    (hlt : s.current_option < (s.items.length : Int)) :
    go_up (go_down s) = s := by
  rcases s with ⟨items, c, sel, ex⟩
  simp only [go_down, go_up] at *
  split_ifs <;> simp_all <;> omega

/-- Witness for claim C9: on a three-item list with the cursor at the last
index, go_down wraps to 0 and go_up returns to index 2. -/
theorem go_up_go_down_id_witness :
    go_up (go_down { items := [Item.other "a", Item.other "b", Item.other "c"],
                     current_option := 2, selected_option := -1,
                     should_exit := false })
      = { items := [Item.other "a", Item.other "b", Item.other "c"],
          current_option := 2, selected_option := -1, should_exit := false } :=
  go_up_go_down_id _ (by decide) (by decide)

/-- The items-list shape with the exit entry enabled and present: a prefix
free of the exit item followed by the exit item in final position. -/
def exit_inv (items : List Item) : Prop :=
  ∃ l, items = l ++ [Item.exit] ∧ l.count Item.exit = 0

lemma exit_inv_append_item (items : List Item) (x : Item) (h : exit_inv items) :
    exit_inv (append_item items x) := by
  obtain ⟨l, rfl, hc⟩ := h
  unfold append_item remove_exit add_exit
  by_cases hx : x = Item.exit
  · subst hx
    simp only [List.getLast?_concat, if_pos rfl, List.dropLast_concat]
    exact ⟨l, by simp, hc⟩
  · simp only [List.getLast?_concat, if_pos rfl, List.dropLast_concat, if_neg hx]
    exact ⟨l ++ [x], by simp, by simp [List.count_append, List.count_cons, hx, hc]⟩

lemma exit_inv_foldl (xs : List Item) (items : List Item) (h : exit_inv items) :
    exit_inv (xs.foldl append_item items) := by
  induction xs generalizing items with
  | nil => exact h
  | cons x xs ih => exact ih _ (exit_inv_append_item _ _ h)

lemma exit_inv_iff (items : List Item) :
    exit_inv items
      ↔ items.count Item.exit = 1 ∧ items.getLast? = some Item.exit := by
  constructor
  · rintro ⟨l, rfl, hc⟩
    exact ⟨by simp [List.count_append, hc], List.getLast?_concat _⟩
  · rintro ⟨hcount, hlast⟩
    have hne : items ≠ [] := by rintro rfl; simp at hlast
    have hg : items.getLast hne = Item.exit := by
      rw [List.getLast?_eq_getLast items hne] at hlast
      exact Option.some_injective _ hlast
    have hdecomp : items = items.dropLast ++ [Item.exit] := by
      conv_lhs => rw [← List.dropLast_append_getLast hne]
      rw [hg]
    refine ⟨items.dropLast, hdecomp, ?_⟩
    rw [hdecomp, List.count_append] at hcount
    simpa using hcount

/-- Claim C3: starting from any state in which the exit entry is enabled
and present (the items list contains the exit entry exactly once, in final
position), every sequence of append_item calls leaves the exit entry
present exactly once and still in final position (index len(items) - 1):
each append removes the trailing exit entry, appends the new item, and
re-appends the exit entry. -/
theorem append_keeps_exit_last (xs : List Item) (items : List Item)
    (hcount : items.count Item.exit = 1)
    (hlast : items.getLast? = some Item.exit) :
    (xs.foldl append_item items).count Item.exit = 1
      ∧ (xs.foldl append_item items).getLast? = some Item.exit :=
  (exit_inv_iff _).1 (exit_inv_foldl xs items ((exit_inv_iff items).2 ⟨hcount, hlast⟩))

/-- Witness for claim C3: appending two plain items to a list holding only
the exit entry keeps the exit entry unique and last. -/
theorem append_keeps_exit_last_witness :
    (([Item.other "a", Item.other "b"]).foldl append_item
        [Item.exit]).count Item.exit = 1
      ∧ (([Item.other "a", Item.other "b"]).foldl append_item
          [Item.exit]).getLast? = some Item.exit :=
  append_keeps_exit_last [Item.other "a", Item.other "b"] [Item.exit]
    (by decide) (by decide)

/-- Claim C8: for every option count N (including 0), a digit key d with
1 ≤ d ≤ min(9, N) sets the cursor to d - 1, and a digit key outside that
range leaves the whole state unchanged. Digit keys arrive as the codes
48 + d for 0 ≤ d ≤ 9. -/
theorem digit_input_jump (s : MenuState) (d : Nat) (hd : d ≤ 9) :
    process_user_input s (48 + d)
      = if 1 ≤ d ∧ d ≤ min 9 s.items.length
          then some { s with current_option := (d : Int) - 1 }
          else some s := by
  by_cases h1 : 1 ≤ d ∧ d ≤ min 9 s.items.length
  · have hne : s.items.isEmpty = false := by
      cases hi : s.items with
      | nil => rw [hi] at h1; simp at h1; omega
      | cons a l => rfl
    have hcond : 49 ≤ 48 + d
        ∧ 48 + d ≤ (if 9 ≤ s.items.length then 57 else 48 + s.items.length) := by
      refine ⟨by omega, ?_⟩
      split <;> omega
    have harith : ((48 + d : Nat) : Int) - 48 - 1 = (d : Int) - 1 := by
      push_cast
      ring
    simp only [process_user_input, if_pos hcond, go_to, with_draw, harith,
      hne, if_pos h1]
    simp
  · have hcond : ¬(49 ≤ 48 + d
        ∧ 48 + d ≤ (if 9 ≤ s.items.length then 57 else 48 + s.items.length)) := by
      split <;> omega
    have h258 : ¬(48 + d = 258) := by omega
    have h259 : ¬(48 + d = 259) := by omega
    have h261 : ¬(48 + d = 261) := by omega
    have h260 : ¬(48 + d = 260) := by omega
    have h410 : ¬(48 + d = 410) := by omega
    have h10 : ¬(48 + d = 10) := by omega
    simp only [process_user_input, if_neg hcond, if_neg h258, if_neg h259,
      if_neg h261, if_neg h260, if_neg h410, if_neg h10, if_neg h1]

/-- Witness for claim C8 on a five-item list: digit key 3 (code 48 + 3)
moves the cursor to index 2. -/
theorem digit_input_jump_witness :
    process_user_input
        { items := [Item.other "a", Item.other "b", Item.other "c",
                    Item.other "d", Item.exit],
          current_option := 0, selected_option := -1, should_exit := false }
        (48 + 3)
      = if 1 ≤ 3 ∧ 3 ≤ min 9 ([Item.other "a", Item.other "b", Item.other "c",
            Item.other "d", Item.exit] : List Item).length
          then some { items := [Item.other "a", Item.other "b", Item.other "c",
                        Item.other "d", Item.exit],
                      current_option := (3 : Int) - 1, selected_option := -1,
                      should_exit := false }
          else some { items := [Item.other "a", Item.other "b", Item.other "c",
                        Item.other "d", Item.exit],
                      current_option := 0, selected_option := -1,
                      should_exit := false } :=
  digit_input_jump _ 3 (by decide)

/-- Claim C10: whenever the options list is non-empty and the recorded
selected index differs from -1, selected_item returns the option at the
current cursor index: the result is independent of the recorded selected
index (beyond it not being -1) and follows the cursor wherever it moves. -/
theorem selected_item_follows_cursor (s : MenuState)
    (hne : s.items ≠ []) (hsel : s.selected_option ≠ -1)
    (h0 : 0 ≤ s.current_option)
    (hlt : s.current_option < (s.items.length : Int)) :
    selected_item s = s.items.get? s.current_option.toNat
      ∧ (∀ v : Int, v ≠ -1 →
          selected_item { s with selected_option := v } = selected_item s)
      ∧ (∀ c : Int, 0 ≤ c → c < (s.items.length : Int) →
          selected_item { s with current_option := c }
            = s.items.get? c.toNat) := by
  refine ⟨?_, ?_, ?_⟩
  · unfold selected_item
    rw [if_pos ⟨hne, hsel⟩, pyGet_nonneg _ _ h0 hlt]
  · intro v hv
    unfold selected_item
    simp only
    rw [if_pos ⟨hne, hv⟩, if_pos ⟨hne, hsel⟩]
  · intro c hc0 hclt
    unfold selected_item
    simp only
    rw [if_pos ⟨hne, hsel⟩, pyGet_nonneg _ _ hc0 hclt]

/-- Witness for claim C10: with items [a, b], cursor 1 and recorded
selected index 0, selected_item reports the item under the cursor (b), and
moving the cursor to 0 makes it report a instead. -/
theorem selected_item_follows_cursor_witness :
    selected_item { items := [Item.other "a", Item.other "b"], current_option := 1, selected_option := 0, should_exit := false }
      = ([Item.other "a", Item.other "b"] : List Item).get? (1 : Int).toNat
    ∧ selected_item { items := [Item.other "a", Item.other "b"], current_option := 0, selected_option := 0, should_exit := false }
      = ([Item.other "a", Item.other "b"] : List Item).get? (0 : Int).toNat :=
  ⟨(selected_item_follows_cursor
      { items := [Item.other "a", Item.other "b"], current_option := 1,
        selected_option := 0, should_exit := false }
      (by decide) (by decide) (by decide) (by decide)).1,
    (selected_item_follows_cursor
      { items := [Item.other "a", Item.other "b"], current_option := 1,
        selected_option := 0, should_exit := false }
      (by decide) (by decide) (by decide) (by decide)).2.2 0
      (by decide) (by decide)⟩

/-- Claim C6: when parent node P selects a SubmenuOption whose child is
node C, the child loop runs on the child input script (focus transfer);
when control returns to P (for instance after the child exit entry was
selected, which sets the child should_exit flag), the parent cursor equals
its value from immediately before the descent, the parent recorded
selected index equals that cursor (select records it just before the
descent), the parent items are untouched and its loop keeps running (the
SubmenuItem should_exit flag is False). -/
theorem submenu_descent_preserves_parent (p c : MenuState) (show_exit : Bool)
    (fuel : Nat) (script : List Nat) (p2 c2 : MenuState)
    (h : select_submenu p c show_exit fuel script = some (p2, c2)) :
    p2.current_option = p.current_option
      ∧ p2.selected_option = p.current_option
      ∧ p2.items = p.items
      ∧ p2.should_exit = false
      ∧ start fuel show_exit c script = some c2 := by
  unfold select_submenu at h
  cases hs : start fuel show_exit c script with
  | none => rw [hs] at h; exact absurd h (by simp)
  | some c3 =>
    rw [hs] at h
    simp only [with_draw] at h
    by_cases hne : p.items.isEmpty
    · rw [if_pos hne] at h
      exact absurd h (by simp)
    · rw [if_neg hne] at h
      simp only [Option.some.injEq, Prod.mk.injEq] at h
      obtain ⟨hp, hc⟩ := h
      subst hp
      subst hc
      exact ⟨rfl, rfl, rfl, rfl, rfl⟩

/-- Witness for claim C6: a parent whose cursor rests on its submenu
option descends into a two-item child; the child script moves down once
and presses enter, selecting the child exit entry; control returns with
the parent cursor still 0 and its recorded selected index 0. -/
theorem submenu_descent_witness :
    ({ items := [Item.other "Sub", Item.exit], current_option := 0,
       selected_option := 0, should_exit := false } : MenuState).current_option
        = ({ items := [Item.other "Sub", Item.exit], current_option := 0,
             selected_option := -1, should_exit := false } : MenuState).current_option
      ∧ ({ items := [Item.other "Sub", Item.exit], current_option := 0,
           selected_option := 0, should_exit := false } : MenuState).selected_option
          = ({ items := [Item.other "Sub", Item.exit], current_option := 0,
               selected_option := -1, should_exit := false } : MenuState).current_option
      ∧ ({ items := [Item.other "Sub", Item.exit], current_option := 0,
           selected_option := 0, should_exit := false } : MenuState).items
          = ({ items := [Item.other "Sub", Item.exit], current_option := 0,
               selected_option := -1, should_exit := false } : MenuState).items
      ∧ ({ items := [Item.other "Sub", Item.exit], current_option := 0,
           selected_option := 0, should_exit := false } : MenuState).should_exit = false
      ∧ start 10 true
            { items := [Item.other "A", Item.exit], current_option := 5,
              selected_option := 7, should_exit := true } [258, 10]
          = some { items := [Item.other "A", Item.exit], current_option := 1,
                   selected_option := 1, should_exit := true } :=
  submenu_descent_preserves_parent
    { items := [Item.other "Sub", Item.exit], current_option := 0,
      selected_option := -1, should_exit := false }
    { items := [Item.other "A", Item.exit], current_option := 5,
      selected_option := 7, should_exit := true }
    true 10 [258, 10]
    { items := [Item.other "Sub", Item.exit], current_option := 0,
      selected_option := 0, should_exit := false }
    { items := [Item.other "A", Item.exit], current_option := 1,
      selected_option := 1, should_exit := true }
    (by decide)

/-- Claim C1 (the code refutes it): on a node with an empty options list,
draw emits the border, title and subtitle but then raises
UnboundLocalError at the version stamp (the for loop never bound its index
variable), so the call does not complete; add_exit declines to add the
exit entry to an empty list, so no exit entry exists to select; and the
resize, select and arrow keys all crash (resize and arrows re-draw the
empty surface, select dereferences a None selected_item). -/
theorem empty_menu_draw_fails (t st : String) :
    draw (some t) (some st) none "0.1.0"
        { items := [], current_option := 0, selected_option := -1, should_exit := false } 24 80
      = ([DrawOp.border, DrawOp.addstr 2 2 t Style.underline,
          DrawOp.addstr 4 2 st Style.bold], false)
    ∧ add_exit [] = ([], false)
    ∧ process_user_input { items := [], current_option := 0, selected_option := -1, should_exit := false } 410 = none
    ∧ process_user_input { items := [], current_option := 0, selected_option := -1, should_exit := false } 261 = none
    ∧ process_user_input { items := [], current_option := 0, selected_option := -1, should_exit := false } 258 = none :=
  ⟨rfl, rfl, rfl, rfl, rfl⟩
